import Mathlib

/-!
Verification of the constrained-mixture remodeling engine
(`src/core/models.py`, `src/core/constans.py`).

The engine is shallowly embedded over `ℝ`: numpy floating-point arithmetic
is modelled by exact real arithmetic, `scipy.integrate.quad` by the
mathematical interval integral of the same integrand, and the evenly spaced
`np.linspace` grid by the exact formula `t_i = t_end * i / (n_points - 1)`.
Python exceptions (`ValueError`, `KeyError`, `AttributeError`,
`ZeroDivisionError`, `IndexError`) are modelled by an `Except` result.
Dictionaries of parameters are modelled by records of `Option` fields
(`none` = key absent, and for `sigma0_c` also the explicit Python `None`).
-/

noncomputable section

namespace CMM

open Real

/-- The Python exceptions the engine can raise. -/
inductive PyErr where
  | valueError : String → PyErr
  | keyError : String → PyErr
  | attributeError : PyErr
  | zeroDivisionError : PyErr
  | indexError : PyErr
deriving DecidableEq

/-- The three protocol identifiers of `simulate`'s dispatch table. -/
inductive Protocol where
  | constant : Protocol
  | linear : Protocol
  | cyclic : Protocol
deriving DecidableEq

/-- A possibly-partial parameter record as passed to
`ConstrainedMixtureModel.__init__` or `get_parameters`: each field is a
dictionary key, `none` meaning the key is absent. -/
structure Record where
  c_c : Option ℝ := none
  c_e : Option ℝ := none
  c_g : Option ℝ := none
  fi0_c : Option ℝ := none
  fi0_e : Option ℝ := none
  fi0_g : Option ℝ := none
  k_cplus : Option ℝ := none
  k_cminus : Option ℝ := none
  k_eplus : Option ℝ := none
  k_eminus : Option ℝ := none
  lambda0_c : Option ℝ := none
  lambda0_e : Option ℝ := none
  lambda_roof : Option ℝ := none
  a : Option ℝ := none
  K_cplus : Option ℝ := none
  sigma0_c : Option ℝ := none
  alpha_c : Option ℝ := none
  gamma : Option ℝ := none
  t_end : Option ℝ := none
  n_points : Option ℕ := none
  epsilon : Option ℝ := none
  omega : Option ℝ := none
  protocol : Option String := none
  j_cplus : Option ℝ := none
  j_eplus : Option ℝ := none

/-- A completed parameter record, as held in `self.params` after
construction.  `epsilonOpt`, `protocolOpt` and `omegaOpt` stay optional
because the model's own default table supplies no value for those keys. -/
structure Params where
  c_c : ℝ
  c_e : ℝ
  c_g : ℝ
  fi0_c : ℝ
  fi0_e : ℝ
  fi0_g : ℝ
  k_cplus : ℝ
  k_cminus : ℝ
  k_eplus : ℝ
  k_eminus : ℝ
  lambda0_c : ℝ
  lambda0_e : ℝ
  lambda_roof : ℝ
  a : ℝ
  K_cplus : ℝ
  sigma0_c : ℝ
  alpha_c : ℝ
  gamma : ℝ
  t_end : ℝ
  n_points : ℕ
  J0 : ℝ
  Jc0 : ℝ
  Je0 : ℝ
  Jg0 : ℝ
  j_cplus : ℝ
  j_eplus : ℝ
  epsilonOpt : Option ℝ
  protocolOpt : Option String
  omegaOpt : Option ℝ

/-- The evenly spaced time grid `np.linspace(0, t_end, n_points)`:
`t_i = t_end * i / (n_points - 1)` (for a single-point grid the Lean junk
value `t_end * i / 0 = 0` agrees with numpy's `[0.0]` at the only index). -/
def gridTime (p : Params) (i : ℕ) : ℝ :=
  p.t_end * i / ((p.n_points - 1 : ℕ) : ℝ)

/-- Collagen stress response `_sigma_c_roof`:
`4 c_c λ² (λ²−1) exp(α_c (λ²−1)²)`. -/
def sigma_c_roof (p : Params) (lam : ℝ) : ℝ :=
  4 * p.c_c * lam ^ 2 * (lam ^ 2 - 1) * Real.exp (p.alpha_c * (lam ^ 2 - 1) ^ 2)

/-- Collagen survival function `_q_c`: `exp(−k_cminus (t − τ))`. -/
def q_c (p : Params) (tau t : ℝ) : ℝ :=
  Real.exp (-p.k_cminus * (t - tau))

/-- Elastin survival function `_q_e`: `exp(−k_eminus (t − τ))`. -/
def q_e (p : Params) (tau t : ℝ) : ℝ :=
  Real.exp (-p.k_eminus * (t - tau))

/-- Collagen total-mass function `_Q_c` with Python division semantics:
the guard returns 1 when BOTH rates are zero; otherwise the closed form
divides by `k_cminus`, a `ZeroDivisionError` when that rate is zero. -/
def Q_cE (p : Params) (t : ℝ) : Except PyErr ℝ :=
  if p.k_cminus = 0 ∧ p.k_cplus = 0 then .ok 1
  else if p.k_cminus = 0 then .error .zeroDivisionError
  else .ok (Real.exp (-p.k_cminus * t) +
    (p.k_cplus / p.k_cminus) * (1 - Real.exp (-p.k_cminus * t)))

/-- Elastin total-mass function `_Q_e` with Python division semantics: its
guard fires on `k_eminus = 0 ∧ k_eplus ≠ 0` (note the asymmetry with the
collagen guard), so both rates zero reaches the division by `k_eminus`. -/
def Q_eE (p : Params) (t : ℝ) : Except PyErr ℝ :=
  if p.k_eminus = 0 ∧ p.k_eplus ≠ 0 then .ok 1
  else if p.k_eminus = 0 then .error .zeroDivisionError
  else .ok (Real.exp (-p.k_eminus * t) +
    (p.k_eplus / p.k_eminus) * (1 - Real.exp (-p.k_eminus * t)))

/-- Total view of `_Q_c` (error collapsed to the junk value 0), used inside
the protocol evaluators, whose theorems carry the no-division hypotheses. -/
def Q_c (p : Params) (t : ℝ) : ℝ :=
  match Q_cE p t with
  | .ok v => v
  | .error _ => 0

/-- Total view of `_Q_e` (error collapsed to the junk value 0). -/
def Q_e (p : Params) (t : ℝ) : ℝ :=
  match Q_eE p t with
  | .ok v => v
  | .error _ => 0

/-- Matrix stress `_calc_sigma_g`: `(Jg0/J0) · 4 c_g λ² (λ²−1)`
(the time argument is accepted and unused, as in the source). -/
def calc_sigma_g (p : Params) (_t lam : ℝ) : ℝ :=
  (p.Jg0 / p.J0) * 4 * p.c_g * lam ^ 2 * (lam ^ 2 - 1)

/-- Growth factor `_G_c`: `Jc0^(1/(1+2γ))` at `t = 0`, else
`(Jc0 · Q_c(t))^(1/(1+2γ))` (real-exponent power). -/
def G_c (p : Params) (t : ℝ) : ℝ :=
  if t = 0 then p.Jc0 ^ (1 / (1 + 2 * p.gamma))
  else (p.Jc0 * Q_c p t) ^ (1 / (1 + 2 * p.gamma))

/-- Growth factor `_G_e`, the elastin analogue of `_G_c`. -/
def G_e (p : Params) (t : ℝ) : ℝ :=
  if t = 0 then p.Je0 ^ (1 / (1 + 2 * p.gamma))
  else (p.Je0 * Q_e p t) ^ (1 / (1 + 2 * p.gamma))

/-- Construction `ConstrainedMixtureModel.__init__` /
`_validate_and_complete_params`: merge the model's own default table with
the supplied record, derive `time`, `J0`, `Jc0`, `Je0`, `Jg0`, then resolve
`sigma0_c`.  When `sigma0_c` is absent (or `None`), the source calls
`self._sigma_c_roof(lambda_c0)` — but `__init__` has not yet assigned
`self.params`, so the attribute access `self.params` inside `_sigma_c_roof`
raises `AttributeError` before any value can be produced.  Note that this
method performs no validation of the rate constants or of `a`. -/
def construct (r : Record) : Except PyErr Params :=
  let c_c := r.c_c.getD 1
  let c_e := r.c_e.getD 50
  let c_g := r.c_g.getD 10
  let fi0_c := r.fi0_c.getD 0.75
  let fi0_e := r.fi0_e.getD 0.05
  let fi0_g := r.fi0_g.getD 0.20
  let k_cplus := r.k_cplus.getD 1
  let k_cminus := r.k_cminus.getD 1
  let k_eplus := r.k_eplus.getD 1
  let k_eminus := r.k_eminus.getD 1
  let lambda0_c := r.lambda0_c.getD 1.05
  let lambda0_e := r.lambda0_e.getD 1.10
  let lambda_roof := r.lambda_roof.getD 1.1
  let a := r.a.getD 0.1
  let K_cplus := r.K_cplus.getD 0.04
  let alpha_c := r.alpha_c.getD 0.01
  let gamma := r.gamma.getD 1
  let t_end := r.t_end.getD 10
  let n_points := r.n_points.getD 1000
  let J0 : ℝ := 1
  let Jc0 := fi0_c
  let Je0 := fi0_e
  let Jg0 := fi0_g
  match r.sigma0_c with
  | none => .error .attributeError
  | some s0 =>
      .ok
        { c_c := c_c, c_e := c_e, c_g := c_g
          fi0_c := fi0_c, fi0_e := fi0_e, fi0_g := fi0_g
          k_cplus := k_cplus, k_cminus := k_cminus
          k_eplus := k_eplus, k_eminus := k_eminus
          lambda0_c := lambda0_c, lambda0_e := lambda0_e
          lambda_roof := lambda_roof, a := a, K_cplus := K_cplus
          sigma0_c := s0, alpha_c := alpha_c, gamma := gamma
          t_end := t_end, n_points := n_points
          J0 := J0, Jc0 := Jc0, Je0 := Je0, Jg0 := Jg0
          j_cplus := r.j_cplus.getD (k_cplus * Jc0)
          j_eplus := r.j_eplus.getD (k_eplus * Je0)
          epsilonOpt := r.epsilon
          protocolOpt := r.protocol
          omegaOpt := r.omega }

/-- Parameter resolver `get_parameters` of `src/core/constans.py`: merge
`DEFAULT_PARAMS` (which also fixes `epsilon` and `omega`) with the
overrides, derive the reference volumes and fluxes, resolve `sigma0_c`
from the collagen stress response when unset, and validate: collagen
degradation rate zero with nonzero synthesis is rejected, and `a ≤ 0`
is rejected, both as labeled `ValueError`s. -/
def get_parameters (r : Record) : Except PyErr Params :=
  let c_c := r.c_c.getD 1
  let c_e := r.c_e.getD 50
  let c_g := r.c_g.getD 10
  let fi0_c := r.fi0_c.getD 0.75
  let fi0_e := r.fi0_e.getD 0.05
  let fi0_g := r.fi0_g.getD 0.20
  let k_cplus := r.k_cplus.getD 1
  let k_cminus := r.k_cminus.getD 1
  let k_eplus := r.k_eplus.getD 1
  let k_eminus := r.k_eminus.getD 1
  let lambda0_c := r.lambda0_c.getD 1.05
  let lambda0_e := r.lambda0_e.getD 1.10
  let lambda_roof := r.lambda_roof.getD 1.1
  let a := r.a.getD 0.1
  let K_cplus := r.K_cplus.getD 0.04
  let alpha_c := r.alpha_c.getD 0.01
  let gamma := r.gamma.getD 1
  let t_end := r.t_end.getD 10
  let n_points := r.n_points.getD 1000
  let epsilon := r.epsilon.getD 1e-4
  let omega := r.omega.getD Real.pi
  let J0 : ℝ := 1
  let Jc0 := fi0_c
  let Je0 := fi0_e
  let Jg0 := fi0_g
  let j_cplus := k_cplus * Jc0
  let j_eplus := k_eplus * Je0
  let sigma0 :=
    match r.sigma0_c with
    | some v => v
    | none =>
        (Jc0 / J0) * (4 * c_c * lambda0_c ^ 2 * (lambda0_c ^ 2 - 1) *
          Real.exp (alpha_c * (lambda0_c ^ 2 - 1) ^ 2))
  if k_cminus = 0 ∧ k_cplus ≠ 0 then
    .error (.valueError "k_cminus cannot be 0 when k_cplus != 0")
  else if a ≤ 0 then
    .error (.valueError "Parameter a must be > 0")
  else
    .ok
      { c_c := c_c, c_e := c_e, c_g := c_g
        fi0_c := fi0_c, fi0_e := fi0_e, fi0_g := fi0_g
        k_cplus := k_cplus, k_cminus := k_cminus
        k_eplus := k_eplus, k_eminus := k_eminus
        lambda0_c := lambda0_c, lambda0_e := lambda0_e
        lambda_roof := lambda_roof, a := a, K_cplus := K_cplus
        sigma0_c := sigma0, alpha_c := alpha_c, gamma := gamma
        t_end := t_end, n_points := n_points
        J0 := J0, Jc0 := Jc0, Je0 := Je0, Jg0 := Jg0
        j_cplus := j_cplus, j_eplus := j_eplus
        epsilonOpt := some epsilon
        protocolOpt := r.protocol
        omegaOpt := some omega }

/-- The per-protocol arrays of a simulation, indexed by the time grid
(`results` before the aggregate keys are added). -/
structure BaseResult where
  lambda : ℕ → ℝ
  sigma_c : ℕ → ℝ
  sigma_e : ℕ → ℝ
  sigma_g : ℕ → ℝ
  J_c : ℕ → ℝ
  J_e : ℕ → ℝ

/-- A full Simulation Result: the per-protocol arrays plus the two
aggregates that `simulate` appends. -/
structure SimResult extends BaseResult where
  J_total : ℕ → ℝ
  sigma_total : ℕ → ℝ

/-- Protocol `_constant_protocol`: `λ(t) ≡ λ_roof`; per time index,
`J = J₀ Q(t)`, collagen stress `σ̂(λ_roof) · J_c`, elastin stress
`4 c_e λ² (λ²−1) · J_e`, matrix stress from `_calc_sigma_g`. -/
def constantRun (p : Params) : BaseResult :=
  let lam := p.lambda_roof
  { lambda := fun _ => lam
    J_c := fun i => p.Jc0 * Q_c p (gridTime p i)
    J_e := fun i => p.Je0 * Q_e p (gridTime p i)
    sigma_c := fun i => sigma_c_roof p lam * (p.Jc0 * Q_c p (gridTime p i))
    sigma_e := fun i =>
      4 * p.c_e * lam ^ 2 * (lam ^ 2 - 1) * (p.Je0 * Q_e p (gridTime p i))
    sigma_g := fun i => calc_sigma_g p (gridTime p i) lam }

/-- The linear protocol stretch `λ_roof (1 + a t)`. -/
def linearLambda (p : Params) (t : ℝ) : ℝ :=
  p.lambda_roof * (1 + p.a * t)

/-- Protocol `_linear_protocol`.  Both quadrature integrands evaluate the
stress response at the CURRENT stretch `λ(t_i)` (constant in `τ`), and the
production term is divided by the constituent's own volume fraction
`J_c(t_i)` resp. `J_e(t_i)` — `scipy.integrate.quad` is modelled by the
interval integral of the same integrand. -/
def linearRun (p : Params) : BaseResult :=
  { lambda := fun i => linearLambda p (gridTime p i)
    J_c := fun i => p.Jc0 * Q_c p (gridTime p i)
    J_e := fun i => p.Je0 * Q_e p (gridTime p i)
    sigma_c := fun i =>
      let ti := gridTime p i
      let lam := linearLambda p ti
      (p.Jc0 / p.J0) * sigma_c_roof p lam * q_c p 0 ti +
        (p.j_cplus / (p.Jc0 * Q_c p ti)) *
          ∫ tau in (0:ℝ)..ti, q_c p tau ti * sigma_c_roof p lam
    sigma_e := fun i =>
      let ti := gridTime p i
      let lam := linearLambda p ti
      (p.Je0 / p.J0) * (4 * p.c_e * lam ^ 2 * (lam ^ 2 - 1)) * q_e p 0 ti +
        (p.j_eplus / (p.Je0 * Q_e p ti)) *
          ∫ tau in (0:ℝ)..ti, q_e p tau ti * (4 * p.c_e * lam ^ 2 * (lam ^ 2 - 1))
    sigma_g := fun i => calc_sigma_g p (gridTime p i) (linearLambda p (gridTime p i)) }

/-- The cyclic protocol stretch: `λ_roof (1 + a sin²(π t))`.  The source
hard-codes `omega = np.pi` inside `_cyclic_protocol`; the record's `omega`
key is never read. -/
def cyclicLambda (p : Params) (t : ℝ) : ℝ :=
  p.lambda_roof * (1 + p.a * Real.sin (Real.pi * t) ^ 2)

/-- Protocol `_cyclic_protocol`: the integrands back-compute a natural
stretch through the growth-and-remodeling ratio `(G(τ)/G(t))^(1/(1+2γ))`,
and the production terms are divided by `J_total(t_i)`. -/
def cyclicRun (p : Params) : BaseResult :=
  let e := 1 / (1 + 2 * p.gamma)
  { lambda := fun i => cyclicLambda p (gridTime p i)
    J_c := fun i => p.Jc0 * Q_c p (gridTime p i)
    J_e := fun i => p.Je0 * Q_e p (gridTime p i)
    sigma_c := fun i =>
      let ti := gridTime p i
      let lamt := cyclicLambda p ti
      let Jtot := p.Jc0 * Q_c p ti + p.Je0 * Q_e p ti + p.Jg0
      let lam_c0 := p.lambda0_c * (lamt / p.lambda_roof) * (G_c p 0 / G_c p ti) ^ e
      (p.Jc0 / p.J0) * sigma_c_roof p lam_c0 * q_c p 0 ti +
        (p.j_cplus / Jtot) *
          ∫ tau in (0:ℝ)..ti,
            q_c p tau ti *
              sigma_c_roof p
                (p.lambda0_c * (lamt / cyclicLambda p tau) * (G_c p tau / G_c p ti) ^ e)
    sigma_e := fun i =>
      let ti := gridTime p i
      let lamt := cyclicLambda p ti
      let Jtot := p.Jc0 * Q_c p ti + p.Je0 * Q_e p ti + p.Jg0
      let lam_e0 := p.lambda0_e * (lamt / p.lambda_roof) * (G_e p 0 / G_e p ti) ^ e
      (p.Je0 / p.J0) * (4 * p.c_e * lam_e0 ^ 2 * (lam_e0 ^ 2 - 1)) * q_e p 0 ti +
        (p.j_eplus / Jtot) *
          ∫ tau in (0:ℝ)..ti,
            q_e p tau ti *
              (4 * p.c_e *
                  (p.lambda0_e * (lamt / cyclicLambda p tau) * (G_e p tau / G_e p ti) ^ e) ^ 2 *
                ((p.lambda0_e * (lamt / cyclicLambda p tau) * (G_e p tau / G_e p ti) ^ e) ^ 2 - 1))
    sigma_g := fun i => calc_sigma_g p (gridTime p i) (cyclicLambda p (gridTime p i)) }

/-- The dispatch keys of `simulate`'s `protocol_funcs` dictionary. -/
def parseProtocol (s : String) : Option Protocol :=
  if s = "constant" then some .constant
  else if s = "linear" then some .linear
  else if s = "cyclic" then some .cyclic
  else none

/-- Run the protocol function selected by the dispatch. -/
def runProtocol (p : Params) : Protocol → BaseResult
  | .constant => constantRun p
  | .linear => linearRun p
  | .cyclic => cyclicRun p

/-- The aggregation `simulate` performs after the protocol (and optional
feedback) step: `J_total = J_c + J_e + Jg0` and
`sigma_total = sigma_c + sigma_e + sigma_g`, overwriting any earlier
values of those keys. -/
def aggregate (p : Params) (b : BaseResult) : SimResult :=
  { b with
    J_total := fun i => b.J_c i + b.J_e i + p.Jg0
    sigma_total := fun i => b.sigma_c i + b.sigma_e i + b.sigma_g i }

/-- The feedback factor of `_apply_mechanical_feedback`:
`1 + K_cplus * (sigma_ratio - 1)` with `sigma_ratio = σ_guess / σ₀`. -/
def fbFactor (K sigma_guess sigma0 : ℝ) : ℝ :=
  1 + K * (sigma_guess / sigma0 - 1)

/-- The deposition-time stretch the feedback loop uses, dispatched on the
STRING stored under the params key `protocol` (the `else` branch covers
`cyclic` and any other string, as the Python `if/elif/else` does). -/
def lamProto (p : Params) (proto : String) (tj : ℝ) : ℝ :=
  if proto = "constant" then p.lambda_roof
  else if proto = "linear" then p.lambda_roof * (1 + p.a * tj)
  else p.lambda_roof * (1 + p.a * Real.sin (Real.pi * tj) ^ 2)

/-- The stress-integrand sample `term_sigma` the feedback loop forms at grid
index `j` while solving step `i`: the already-committed `J_c_fb[j]` for
`j < i` and the current guess `Jp` at `j = i`, times
`k_cplus · feedback_factor · σ̂(λ(t_j)) · q_c(t_j, t_i)`. -/
def fbSampleSigma (p : Params) (proto : String) (Jfb : ℕ → ℝ) (Jp ff : ℝ)
    (i j : ℕ) : ℝ :=
  (if j < i then Jfb j else Jp) * p.k_cplus * ff *
    sigma_c_roof p (lamProto p proto (gridTime p j)) *
    q_c p (gridTime p j) (gridTime p i)

/-- The volume-integrand sample `term_J` at grid index `j` for step `i`. -/
def fbSampleJ (p : Params) (Jfb : ℕ → ℝ) (Jp ff : ℝ) (i j : ℕ) : ℝ :=
  (if j < i then Jfb j else Jp) * p.k_cplus * ff *
    q_c p (gridTime p j) (gridTime p i)

/-- The accumulated `integral_sigma` of the feedback loop: each pass of
`for j in range(1, i+1)` adds `0.5 * (t_j - t_{j-1}) * term_sigma(t_j)` —
only the right-endpoint sample of each interval, half-weighted (the
left-endpoint values `sigma_tj_1`, `J_tj_1` are fetched by the source but
never used). -/
def fbIntegralSigma (p : Params) (proto : String) (Jfb : ℕ → ℝ) (Jp ff : ℝ)
    (i : ℕ) : ℝ :=
  ∑ j ∈ Finset.Icc 1 i,
    0.5 * (gridTime p j - gridTime p (j - 1)) * fbSampleSigma p proto Jfb Jp ff i j

/-- The accumulated `integral_J` of the feedback loop (its `term_J` carries
no stress factor, hence no dependence on the protocol stretch). -/
def fbIntegralJ (p : Params) (Jfb : ℕ → ℝ) (Jp ff : ℝ)
    (i : ℕ) : ℝ :=
  ∑ j ∈ Finset.Icc 1 i,
    0.5 * (gridTime p j - gridTime p (j - 1)) * fbSampleJ p Jfb Jp ff i j

/-- One pass of the inner fixed-point loop at time index `i`: from the
guess `s = (σ_prev, J_prev)` compute the feedback factor (the reference
stress `sigma0` is `sigma_c_fb[0]`), the two half-weighted sums, the total
volume `J_prev + J_e[i] + Jg0`, and the new estimates `(σ_new, J_new)`.
After the `j`-loop the Python variable `lambda_tau` holds `λ(t_i)`, which
is what the leading term of `σ_new` evaluates the stress response at. -/
def fbUpdate (p : Params) (proto : String) (base : BaseResult) (Jfb : ℕ → ℝ)
    (sigma0 : ℝ) (i : ℕ) (s : ℝ × ℝ) : ℝ × ℝ :=
  let ff := fbFactor p.K_cplus s.1 sigma0
  let isg := fbIntegralSigma p proto Jfb s.2 ff i
  let iJ := fbIntegralJ p Jfb s.2 ff i
  let Jtot := s.2 + base.J_e i + p.Jg0
  let ti := gridTime p i
  ((p.Jc0 / p.J0) * sigma_c_roof p (lamProto p proto ti) * q_c p 0 ti +
      (1 / Jtot) * isg,
    p.Jc0 * q_c p 0 ti + iJ)

/-- The inner loop `for _ in range(max_iter)` with explicit fuel: update,
test `|σ_new − σ_prev| < ε ∧ |J_new − J_prev| < ε`, and either stop
(converged) or continue with the new estimate.  The value returned is the
last computed estimate together with the convergence flag and the number of
update passes executed. -/
def fbIterate (p : Params) (proto : String) (base : BaseResult) (Jfb : ℕ → ℝ)
    (sigma0 : ℝ) (i : ℕ) (eps : ℝ) : ℕ → ℝ × ℝ → (ℝ × ℝ) × Bool × ℕ
  | 0, s => (s, false, 0)
  | fuel + 1, s =>
      let s' := fbUpdate p proto base Jfb sigma0 i s
      if |s'.1 - s.1| < eps ∧ |s'.2 - s.2| < eps then (s', true, 1)
      else
        let r := fbIterate p proto base Jfb sigma0 i eps fuel s'
        (r.1, r.2.1, r.2.2 + 1)

/-- One committed cell of the feedback arrays: the stress and volume
fraction written at a time index, the convergence flag of that step, and
the number of inner passes it used. -/
structure FBCell where
  sigma : ℝ
  J : ℝ
  converged : Bool
  iters : ℕ

/-- The feedback solver's sequential sweep: index 0 is seeded with the
base-case collagen stress and `Jc0`; each later index starts from the
base-case values at `i` and runs the inner loop with `max_iter = 20`,
reading the already-committed cells at indices `j < i` (indices outside
the solved prefix are never read by the sums; they are guarded with 0).
The reference stress `sigma0` is the committed cell 0's stress —
`sigma_c_fb[0]`, NOT the params entry `sigma0_c`. -/
def fbCellFn (p : Params) (proto : String) (base : BaseResult) (eps : ℝ) :
    ℕ → FBCell
  | 0 => ⟨base.sigma_c 0, p.Jc0, true, 0⟩
  | i + 1 =>
      let sigma0 := (fbCellFn p proto base eps 0).sigma
      let Jfb : ℕ → ℝ := fun j =>
        if _h : j < i + 1 then (fbCellFn p proto base eps j).J else 0
      let r := fbIterate p proto base Jfb sigma0 (i + 1) eps 20
        (base.sigma_c (i + 1), base.J_c (i + 1))
      ⟨r.1.1, r.1.2, r.2.1, r.2.2⟩
termination_by i => i
decreasing_by
  all_goals omega

/-- The replacement `_apply_mechanical_feedback` performs on the result:
the collagen stress and volume arrays become the committed feedback cells;
elastin and matrix arrays are untouched. -/
def applyFeedback (p : Params) (proto : String) (base : BaseResult) (eps : ℝ) :
    BaseResult :=
  { base with
    sigma_c := fun i => (fbCellFn p proto base eps i).sigma
    J_c := fun i => (fbCellFn p proto base eps i).J }

/-- The non-convergence warnings the solver prints: one signal per time
index whose step did not converge (index 0 is seeded as converged). -/
def fbWarnings (p : Params) (proto : String) (base : BaseResult) (eps : ℝ)
    (n : ℕ) : List ℕ :=
  (List.range n).filter fun i => !(fbCellFn p proto base eps i).converged

/-- Entry point `simulate(protocol, feedback)`: dispatch on the protocol
string (unknown strings raise a labeled `ValueError`); with feedback on,
the solver first writes the seed cell (an `IndexError` on an empty grid),
reads `self.params['epsilon']` (a `KeyError` when the construction record
lacked that key), and — as soon as the time loop body runs, i.e. with at
least two grid points — reads `self.params['protocol']` inside the sums
(a `KeyError` when that key is absent, even though the protocol identity
was passed as the argument).  With a single grid point the `protocol` key
is never read, and only the seed entry of the arrays is observable. -/
def simulate (p : Params) (proto : String) (feedback : Bool) :
    Except PyErr SimResult :=
  match parseProtocol proto with
  | none => .error (.valueError ("Unknown protocol: " ++ proto))
  | some pr =>
      let base := runProtocol p pr
      if feedback then
        if p.n_points = 0 then .error .indexError
        else
          match p.epsilonOpt with
          | none => .error (.keyError "epsilon")
          | some eps =>
              if 2 ≤ p.n_points then
                match p.protocolOpt with
                | none => .error (.keyError "protocol")
                | some ps => .ok (aggregate p (applyFeedback p ps base eps))
              else
                .ok (aggregate p (applyFeedback p (p.protocolOpt.getD "constant") base eps))
      else
        .ok (aggregate p base)

/-- Modelled from the spec: the claimed history-integral stress form
`σ(t) = (J₀/J_ref)·σ̂(λ_eff(0))·q(0,t) + (j₊/J_total(t))·∫₀ᵗ q(τ,t)·σ̂(λ_eff(τ)) dτ`
with `λ_eff(τ) = λ(τ)` (the macroscopic stretch at deposition time) and
survival kernel `q(τ,t) = exp(−k₋(t−τ))`, to be compared with the source
protocols. -/
def specSigmaTurnover (J0c Jref jplus kminus : ℝ) (sigmaHat lam Jtot : ℝ → ℝ)
    (t : ℝ) : ℝ :=
  (J0c / Jref) * sigmaHat (lam 0) * Real.exp (-kminus * (t - 0)) +
    (jplus / Jtot t) *
      ∫ tau in (0:ℝ)..t, Real.exp (-kminus * (t - tau)) * sigmaHat (lam tau)

/-- Modelled from the spec: the trapezoidal rule over the discrete time
grid — each interval `[t_{j−1}, t_j]` contributes
`0.5·(t_j − t_{j−1})·(f(t_{j−1}) + f(t_j))`, to be compared with the
feedback solver's accumulated sums. -/
def trapezoidSum (p : Params) (f : ℕ → ℝ) (i : ℕ) : ℝ :=
  ∑ j ∈ Finset.Icc 1 i,
    0.5 * (gridTime p j - gridTime p (j - 1)) * (f (j - 1) + f j)

/-- Exact value of the survival-kernel integral `∫₀ᵗ q(τ,t) dτ` for a
nonzero degradation rate. -/
theorem integral_q_kernel (k t : ℝ) (hk : k ≠ 0) :
    ∫ tau in (0:ℝ)..t, Real.exp (-k * (t - tau)) = (1 - Real.exp (-k * t)) / k := by
  have h1 : ∀ tau : ℝ, Real.exp (-k * (t - tau)) =
      Real.exp (-k * t) * Real.exp (k * tau) := by
    intro tau
    rw [← Real.exp_add]
    ring_nf
  simp only [h1]
  rw [intervalIntegral.integral_const_mul]
  rw [intervalIntegral.integral_comp_mul_left (f := Real.exp) hk]
  simp [integral_exp, smul_eq_mul]
  field_simp
  rw [mul_sub, ← Real.exp_add]
  simp

/-- Survival-kernel integral against a constant stress factor. -/
theorem integral_q_kernel_mul (k t C : ℝ) (hk : k ≠ 0) :
    (∫ tau in (0:ℝ)..t, Real.exp (-k * (t - tau)) * C) =
      C * ((1 - Real.exp (-k * t)) / k) := by
  rw [intervalIntegral.integral_mul_const, integral_q_kernel k t hk, mul_comm]

/-- The completed record `ConstrainedMixtureModel.__init__` builds from an
otherwise-empty record carrying an explicit `sigma0_c = 1`; a concrete
engine input reused by the witnesses. -/
def baseParams : Params :=
  { c_c := 1, c_e := 50, c_g := 10
    fi0_c := 0.75, fi0_e := 0.05, fi0_g := 0.20
    k_cplus := 1, k_cminus := 1, k_eplus := 1, k_eminus := 1
    lambda0_c := 1.05, lambda0_e := 1.10
    lambda_roof := 1.1, a := 0.1, K_cplus := 0.04
    sigma0_c := 1, alpha_c := 0.01, gamma := 1
    t_end := 10, n_points := 1000
    J0 := 1, Jc0 := 0.75, Je0 := 0.05, Jg0 := 0.20
    j_cplus := 0.75, j_eplus := 0.05
    epsilonOpt := some 1e-4
    protocolOpt := some "constant"
    omegaOpt := some Real.pi }

/-- C1 input: a record whose cyclic frequency is overridden to `2π`, on a
short five-point grid over one day. -/
def pC7 : Params :=
  { baseParams with t_end := 1, n_points := 5, omegaOpt := some (2 * Real.pi) }

/-- C8 input: both elastin rates zero. -/
def pC8 : Params := { baseParams with k_eminus := 0, k_eplus := 0 }

/-- C8 witness input: both collagen rates and both elastin rates zero. -/
def pC8w : Params :=
  { baseParams with k_cminus := 0, k_cplus := 0, k_eminus := 0, k_eplus := 0 }

/-- C1: for every construction record that supplies no explicit `sigma0_c`,
`ConstrainedMixtureModel.__init__` does NOT return a resolved instance with
the derived homeostatic stress: the derivation branch calls
`self._sigma_c_roof` before `self.params` exists, so construction raises
`AttributeError` — neither a resolved instance nor a validation failure. -/
theorem construct_missing_sigma0_attribute_error (r : Record)
    (h : r.sigma0_c = none) :
    construct r = Except.error PyErr.attributeError := by
  simp [construct, h]

/-- Witness for C1's theorem: the empty record (every CLI/GUI run builds
records without `sigma0_c`, so this is the default path). -/
theorem construct_missing_sigma0_attribute_error_witness :
    ({} : Record).sigma0_c = none ∧
      construct {} = Except.error PyErr.attributeError :=
  ⟨rfl, construct_missing_sigma0_attribute_error {} rfl⟩

/-- C2 input: elastin degradation rate zero with nonzero elastin
synthesis (and an explicit `sigma0_c`, so model construction can finish). -/
def rC2 : Record :=
  { k_eminus := some 0, k_eplus := some 1, sigma0_c := some 1 }

/-- C2 counterexample: a record with elastin degradation rate zero and
elastin synthesis rate nonzero is accepted by both the parameter resolver
and model construction — no labeled validation failure is produced, the
claim fails for the elastin pair. -/
theorem elastin_zero_degradation_not_rejected :
    (get_parameters rC2).isOk = true ∧ (construct rC2).isOk = true := by
  constructor
  · rw [get_parameters]
    norm_num [rC2, Except.isOk, Except.toBool]
  · rw [construct]
    norm_num [rC2, Except.isOk, Except.toBool]

/-- C2 amended: the validation lives in `get_parameters` and covers only
the collagen rate pair and the growth coefficient; unknown protocol
identifiers fail at `simulate` dispatch with a labeled `ValueError`. -/
theorem validation_rules_collagen_and_dispatch :
    (∀ r : Record, r.k_cminus.getD 1 = 0 → r.k_cplus.getD 1 ≠ 0 →
      get_parameters r =
        Except.error (PyErr.valueError "k_cminus cannot be 0 when k_cplus != 0")) ∧
    (∀ r : Record, ¬(r.k_cminus.getD 1 = 0 ∧ r.k_cplus.getD 1 ≠ 0) →
      r.a.getD 0.1 ≤ 0 →
      get_parameters r =
        Except.error (PyErr.valueError "Parameter a must be > 0")) ∧
    (∀ (p : Params) (s : String) (fb : Bool), parseProtocol s = none →
      simulate p s fb = Except.error (PyErr.valueError ("Unknown protocol: " ++ s))) := by
  refine ⟨?_, ?_, ?_⟩
  · intro r h1 h2
    rw [get_parameters]
    rw [if_pos ⟨h1, h2⟩]
  · intro r h1 h2
    rw [get_parameters]
    rw [if_neg h1, if_pos h2]
  · intro p s fb h
    rw [simulate, h]

/-- C7 counterexample: the record's cyclic frequency is `2π`, but at grid
time `t₁ = 1/4` the cyclic protocol produces `λ_roof(1 + a sin²(π/4))`,
not the claimed `λ_roof(1 + a sin²(ω t₁)) = λ_roof(1 + a sin²(π/2))` —
the hard-coded `omega = np.pi` wins over the record's value. -/
theorem cyclic_uses_hardcoded_pi_not_record_omega :
    pC7.omegaOpt = some (2 * Real.pi) ∧
      (cyclicRun pC7).lambda 1 ≠
        pC7.lambda_roof * (1 + pC7.a * Real.sin (2 * Real.pi * gridTime pC7 1) ^ 2) := by
  have hg : gridTime pC7 1 = 1 / 4 := by
    rw [gridTime]
    norm_num [pC7, baseParams]
  constructor
  · rfl
  · rw [show (cyclicRun pC7).lambda 1 = cyclicLambda pC7 (gridTime pC7 1) from rfl]
    rw [cyclicLambda, hg]
    rw [show Real.pi * (1 / 4 : ℝ) = Real.pi / 4 by ring]
    rw [show 2 * Real.pi * (1 / 4 : ℝ) = Real.pi / 2 by ring]
    rw [Real.sin_pi_div_four, Real.sin_pi_div_two]
    rw [div_pow, Real.sq_sqrt (by norm_num : (2:ℝ) ≥ 0)]
    norm_num [pC7, baseParams]

/-- C7 amended: the cyclic stretch is `λ_roof(1 + a sin²(π t_i))` with the
frequency fixed at the hard-coded `π` (the record's `omega` is ignored);
for nonnegative `a` and `λ_roof` it stays within
`[λ_roof, λ_roof(1+a)]`, and it is periodic with period `π/π = 1`. -/
theorem cyclic_lambda_formula_bounds_period (p : Params) (i : ℕ) (t : ℝ)
    (ha : 0 ≤ p.a) (hl : 0 ≤ p.lambda_roof) :
    (cyclicRun p).lambda i =
        p.lambda_roof * (1 + p.a * Real.sin (Real.pi * gridTime p i) ^ 2) ∧
      p.lambda_roof ≤ cyclicLambda p t ∧
      cyclicLambda p t ≤ p.lambda_roof * (1 + p.a) ∧
      cyclicLambda p (t + 1) = cyclicLambda p t := by
  refine ⟨rfl, ?_, ?_, ?_⟩
  · rw [cyclicLambda]
    nlinarith [sq_nonneg (Real.sin (Real.pi * t)), mul_nonneg ha (sq_nonneg (Real.sin (Real.pi * t)))]
  · rw [cyclicLambda]
    nlinarith [Real.sin_sq_le_one (Real.pi * t), sq_nonneg (Real.sin (Real.pi * t)),
      mul_nonneg hl ha]
  · rw [cyclicLambda, cyclicLambda]
    rw [show Real.pi * (t + 1) = Real.pi * t + Real.pi by ring]
    rw [Real.sin_add_pi, neg_sq]

/-- Witness for C7's amended theorem at the default parameters. -/
theorem cyclic_lambda_formula_bounds_period_witness :
    (cyclicRun baseParams).lambda 2 =
        baseParams.lambda_roof *
          (1 + baseParams.a * Real.sin (Real.pi * gridTime baseParams 2) ^ 2) ∧
      baseParams.lambda_roof ≤ cyclicLambda baseParams 3 ∧
      cyclicLambda baseParams 3 ≤ baseParams.lambda_roof * (1 + baseParams.a) ∧
      cyclicLambda baseParams (3 + 1) = cyclicLambda baseParams 3 :=
  cyclic_lambda_formula_bounds_period baseParams 2 3
    (by norm_num [baseParams]) (by norm_num [baseParams])

/-- C8 counterexample: with BOTH elastin rates zero, the elastin guard
(`k_eminus = 0 ∧ k_eplus ≠ 0`) does not fire and the closed form divides
`k_eplus` by `k_eminus = 0`: a `ZeroDivisionError`, not `Q(t) = 1`. -/
theorem elastin_Q_zero_rates_division_error :
    Q_eE pC8 1 = Except.error PyErr.zeroDivisionError := by
  rw [Q_eE]
  norm_num [pC8, baseParams]

/-- C8 amended: with both rates zero, collagen's guard returns `Q_c = 1`
with no division, so its volume fraction stays at the reference value; for
elastin the guard instead fires on `k_eminus = 0 ∧ k_eplus ≠ 0` (then
`Q_e = 1`), and with both elastin rates zero the closed form divides by
zero. -/
theorem Q_zero_rate_guards (p : Params) (t : ℝ)
    (hcm : p.k_cminus = 0) (hcp : p.k_cplus = 0) (hem : p.k_eminus = 0) :
    (Q_cE p t = Except.ok 1 ∧ p.Jc0 * Q_c p t = p.Jc0) ∧
      (p.k_eplus ≠ 0 → Q_eE p t = Except.ok 1 ∧ p.Je0 * Q_e p t = p.Je0) ∧
      (p.k_eplus = 0 → Q_eE p t = Except.error PyErr.zeroDivisionError) := by
  refine ⟨⟨?_, ?_⟩, fun hep => ⟨?_, ?_⟩, fun hep => ?_⟩
  · rw [Q_cE, if_pos ⟨hcm, hcp⟩]
  · rw [Q_c, Q_cE, if_pos ⟨hcm, hcp⟩]
    norm_num
  · rw [Q_eE, if_pos ⟨hem, hep⟩]
  · rw [Q_e, Q_eE, if_pos ⟨hem, hep⟩]
    norm_num
  · rw [Q_eE, if_neg (by simp [hem, hep]), if_pos hem]

/-- Optional keys of a successfully constructed model pass through from
the construction record unchanged. -/
theorem construct_ok_fields (r : Record) (p : Params)
    (h : construct r = Except.ok p) :
    p.epsilonOpt = r.epsilon ∧ p.protocolOpt = r.protocol ∧
      p.n_points = r.n_points.getD 1000 := by
  cases hs : r.sigma0_c with
  | none =>
      rw [construct, hs] at h
      exact absurd h (by simp)
  | some s0 =>
      rw [construct, hs] at h
      cases h
      exact ⟨rfl, rfl, rfl⟩

/-- C10: a model built from a record lacking the `epsilon` key (not in the
model's own default table) fails every feedback-enabled simulate call on a
grid of at least two points with `KeyError: epsilon`; with `epsilon`
present but the `protocol` key absent it fails with `KeyError: protocol`,
even though the protocol identity was passed as the `simulate` argument. -/
theorem feedback_missing_keys_keyerror (r : Record) (p : Params) (s : String)
    (pr : Protocol) (hc : construct r = Except.ok p)
    (hs : parseProtocol s = some pr) (hn : 2 ≤ p.n_points) :
    (r.epsilon = none → simulate p s true = Except.error (PyErr.keyError "epsilon")) ∧
      (∀ e, r.epsilon = some e → r.protocol = none →
        simulate p s true = Except.error (PyErr.keyError "protocol")) := by
  obtain ⟨he, hp, _⟩ := construct_ok_fields r p hc
  have hn0 : ¬p.n_points = 0 := by omega
  constructor
  · intro h0
    rw [simulate, hs]
    simp [hn0, he, h0]
  · intro e h0 h1
    rw [simulate, hs]
    simp [hn0, he, hp, h0, h1, hn]

/-- C10 input record: only `sigma0_c` supplied (so construction succeeds),
`epsilon` and `protocol` both absent. -/
def rC10 : Record := { sigma0_c := some 1 }

/-- The completed params `construct rC10` produces. -/
def pC10 : Params :=
  { baseParams with epsilonOpt := none, protocolOpt := none, omegaOpt := none }

/-- Witness for C10's theorem: the concrete record without `epsilon` or
`protocol`. -/
theorem feedback_missing_keys_keyerror_witness :
    construct rC10 = Except.ok pC10 ∧
      simulate pC10 "constant" true = Except.error (PyErr.keyError "epsilon") := by
  have hc : construct rC10 = Except.ok pC10 := by
    rw [construct]
    norm_num [rC10, pC10, baseParams]
  refine ⟨hc, ?_⟩
  exact (feedback_missing_keys_keyerror rC10 pC10 "constant" .constant hc rfl
    (by norm_num [pC10, baseParams])).1 rfl

/-- C9: every Simulation Result `simulate` returns satisfies
`J_total = J_c + J_e + Jg0` and `σ_total = σ_c + σ_e + σ_g` exactly at
every index; under feedback the elastin and matrix series are the
unmodified base-case ones, and the collagen series is the committed
feedback series. -/
theorem simulate_aggregate_identities (p : Params) (s : String) (fb : Bool)
    (pr : Protocol) (r : SimResult) (hs : parseProtocol s = some pr)
    (hr : simulate p s fb = Except.ok r) (i : ℕ) :
    (r.J_total i = r.J_c i + r.J_e i + p.Jg0 ∧
      r.sigma_total i = r.sigma_c i + r.sigma_e i + r.sigma_g i) ∧
      (fb = true → r.sigma_e i = (runProtocol p pr).sigma_e i ∧
        r.sigma_g i = (runProtocol p pr).sigma_g i) ∧
      (fb = true → 2 ≤ p.n_points → ∀ e ps, p.epsilonOpt = some e →
        p.protocolOpt = some ps →
        r.sigma_c i = (fbCellFn p ps (runProtocol p pr) e i).sigma) := by
  rw [simulate, hs] at hr
  cases fb with
  | false =>
      simp only [Bool.false_eq_true, if_false] at hr
      cases hr
      refine ⟨⟨rfl, rfl⟩, ?_, ?_⟩
      · intro h
        exact absurd h (by simp)
      · intro h
        exact absurd h (by simp)
  | true =>
      simp only [if_true] at hr
      split at hr
      · exact absurd hr (by simp)
      · split at hr
        · exact absurd hr (by simp)
        · rename_i eps heps
          split at hr
          · rename_i hn2
            split at hr
            · exact absurd hr (by simp)
            · rename_i ps hps
              cases hr
              refine ⟨⟨rfl, rfl⟩, fun _ => ⟨rfl, rfl⟩, fun _ _ e q he hq => ?_⟩
              rw [heps] at he
              rw [hps] at hq
              cases he
              cases hq
              rfl
          · rename_i hn2
            cases hr
            exact ⟨⟨rfl, rfl⟩, fun _ => ⟨rfl, rfl⟩,
              fun _ h2 => absurd h2 hn2⟩

/-- Witness for C9's theorem: the default parameters, linear protocol,
feedback off. -/
theorem simulate_aggregate_identities_witness :
    simulate baseParams "linear" false =
        Except.ok (aggregate baseParams (linearRun baseParams)) ∧
      (aggregate baseParams (linearRun baseParams)).J_total 0 =
          (aggregate baseParams (linearRun baseParams)).J_c 0 +
            (aggregate baseParams (linearRun baseParams)).J_e 0 + baseParams.Jg0 ∧
      (aggregate baseParams (linearRun baseParams)).sigma_total 0 =
          (aggregate baseParams (linearRun baseParams)).sigma_c 0 +
            (aggregate baseParams (linearRun baseParams)).sigma_e 0 +
            (aggregate baseParams (linearRun baseParams)).sigma_g 0 := by
  have h : simulate baseParams "linear" false =
      Except.ok (aggregate baseParams (linearRun baseParams)) := rfl
  have h2 := (simulate_aggregate_identities baseParams "linear" false .linear
    (aggregate baseParams (linearRun baseParams)) rfl h 0).1
  exact ⟨h, h2.1, h2.2⟩

/-- Replace only the `sigma0_c` entry of a completed record. -/
def setSigma0 (p : Params) (x : ℝ) : Params := { p with sigma0_c := x }

/-- The inner iteration never reads `sigma0_c`. -/
theorem fbIterate_setSigma0 (p : Params) (x : ℝ) (proto : String)
    (base : BaseResult) (Jfb : ℕ → ℝ) (sigma0 : ℝ) (i : ℕ) (eps : ℝ) :
    ∀ (fuel : ℕ) (s : ℝ × ℝ),
      fbIterate (setSigma0 p x) proto base Jfb sigma0 i eps fuel s =
        fbIterate p proto base Jfb sigma0 i eps fuel s := by
  have hupd : fbUpdate (setSigma0 p x) = fbUpdate p := rfl
  intro fuel
  induction fuel with
  | zero => intro s; rfl
  | succ n ih =>
      intro s
      simp only [fbIterate, hupd, ih]

/-- The committed feedback cells never read `sigma0_c`. -/
theorem fbCellFn_setSigma0 (p : Params) (x : ℝ) (proto : String)
    (base : BaseResult) (eps : ℝ) :
    ∀ i : ℕ, fbCellFn (setSigma0 p x) proto base eps i =
      fbCellFn p proto base eps i := by
  intro i
  induction i using Nat.strong_induction_on with
  | _ i ih =>
      cases i with
      | zero =>
          simp only [fbCellFn]
          rfl
      | succ k =>
          simp only [fbCellFn]
          have hJ : (fun j => if _h : j < k + 1 then
              (fbCellFn (setSigma0 p x) proto base eps j).J else 0) =
              (fun j => if _h : j < k + 1 then
                (fbCellFn p proto base eps j).J else 0) := by
            funext j
            by_cases h : j < k + 1
            · simp only [dif_pos h, ih j (by omega)]
            · simp only [dif_neg h]
          rw [hJ, fbIterate_setSigma0]

/-- C4 amended: the feedback factor at every iteration is
`1 + gain·(σ_guess/σ_ref − 1)` where `σ_ref` is the seeded
`sigma_c_fb[0]` — the base-case collagen stress at the first grid index —
and the parameter record's `sigma0_c` (supplied or derived) is never
consulted: the committed cells are invariant under changing it. -/
theorem feedback_reference_stress_is_seed (p : Params) (x : ℝ)
    (proto : String) (base : BaseResult) (eps : ℝ) (i : ℕ) (g : ℝ) :
    fbCellFn (setSigma0 p x) proto base eps i = fbCellFn p proto base eps i ∧
      (fbCellFn p proto base eps 0).sigma = base.sigma_c 0 ∧
      fbFactor p.K_cplus g ((fbCellFn p proto base eps 0).sigma) =
        1 + p.K_cplus * (g / base.sigma_c 0 - 1) := by
  refine ⟨fbCellFn_setSigma0 p x proto base eps i, ?_, ?_⟩
  · simp only [fbCellFn]
  · simp only [fbFactor, fbCellFn]

/-- C4 input: unit feedback gain, no collagen nonlinearity, and an
explicitly supplied homeostatic stress `sigma0_c = 5`. -/
def pC4 : Params := { baseParams with K_cplus := 1, alpha_c := 0, sigma0_c := 5 }

/-- Unit turnover rates make the collagen total-mass function identically
one. -/
theorem Q_c_of_unit_rates (p : Params) (t : ℝ) (hm : p.k_cminus = 1)
    (hp : p.k_cplus = 1) : Q_c p t = 1 := by
  rw [Q_c, Q_cE, hm, hp]
  norm_num

/-- C4 counterexample: with the supplied target `sigma0_c = 5`, the factor
the solver computes on the first iteration of step 1 (reference
`sigma_c_fb[0]`, guess seeded from the base case) differs from the claimed
`1 + gain·(σ_guess/sigma0_c − 1)`. -/
theorem feedback_factor_ignores_params_sigma0 :
    pC4.sigma0_c = 5 ∧
      fbFactor pC4.K_cplus ((constantRun pC4).sigma_c 1)
          ((fbCellFn pC4 "constant" (constantRun pC4) 1e-4 0).sigma) ≠
        1 + pC4.K_cplus * ((constantRun pC4).sigma_c 1 / pC4.sigma0_c - 1) := by
  have h1 : Q_c pC4 (gridTime pC4 1) = 1 := Q_c_of_unit_rates _ _ rfl rfl
  have h0 : Q_c pC4 (gridTime pC4 0) = 1 := Q_c_of_unit_rates _ _ rfl rfl
  refine ⟨rfl, ?_⟩
  simp only [fbFactor, fbCellFn, constantRun, h1, h0]
  norm_num [sigma_c_roof, pC4, baseParams]

/-- Witness for C8's amended theorem: all four turnover rates zero. -/
theorem Q_zero_rate_guards_witness :
    ((Q_cE pC8w 2 = Except.ok 1 ∧ pC8w.Jc0 * Q_c pC8w 2 = pC8w.Jc0) ∧
      (pC8w.k_eplus ≠ 0 → Q_eE pC8w 2 = Except.ok 1 ∧ pC8w.Je0 * Q_e pC8w 2 = pC8w.Je0) ∧
      (pC8w.k_eplus = 0 → Q_eE pC8w 2 = Except.error PyErr.zeroDivisionError)) :=
  Q_zero_rate_guards pC8w 2 rfl rfl rfl

/-- C5 amended: each interval `[t_{j−1}, t_j]` contributes only the
half-weighted right-endpoint sample `0.5·(t_j − t_{j−1})·f(t_j)` to both
feedback sums: they equal the trapezoidal sums minus every left-endpoint
half-term (the source fetches the left-endpoint values and never uses
them). -/
theorem feedback_sums_half_right_endpoint (p : Params) (proto : String)
    (Jfb : ℕ → ℝ) (Jp ff : ℝ) (i : ℕ) :
    fbIntegralSigma p proto Jfb Jp ff i =
        trapezoidSum p (fbSampleSigma p proto Jfb Jp ff i) i -
          ∑ j ∈ Finset.Icc 1 i, 0.5 * (gridTime p j - gridTime p (j - 1)) *
            fbSampleSigma p proto Jfb Jp ff i (j - 1) ∧
      fbIntegralJ p Jfb Jp ff i =
        trapezoidSum p (fbSampleJ p Jfb Jp ff i) i -
          ∑ j ∈ Finset.Icc 1 i, 0.5 * (gridTime p j - gridTime p (j - 1)) *
            fbSampleJ p Jfb Jp ff i (j - 1) := by
  constructor
  · rw [fbIntegralSigma, trapezoidSum, ← Finset.sum_sub_distrib]
    exact Finset.sum_congr rfl fun j _ => by ring
  · rw [fbIntegralJ, trapezoidSum, ← Finset.sum_sub_distrib]
    exact Finset.sum_congr rfl fun j _ => by ring

/-- C5 input: two grid points over one day, no collagen nonlinearity. -/
def pC5 : Params := { baseParams with alpha_c := 0, t_end := 1, n_points := 2 }

/-- The committed-prefix array the solver reads while solving step 1 of
the C5 run. -/
def fbC5Jfb : ℕ → ℝ :=
  fun j => (fbCellFn pC5 "constant" (constantRun pC5) 1e-4 j).J

/-- The feedback factor of the first inner pass at step 1 of the C5 run
(guess seeded from the base case, reference `sigma_c_fb[0]`). -/
def fbC5ff : ℝ :=
  fbFactor pC5.K_cplus ((constantRun pC5).sigma_c 1)
    ((fbCellFn pC5 "constant" (constantRun pC5) 1e-4 0).sigma)

/-- C5 counterexample: at step `i = 1` of the concrete feedback run the
accumulated stress sum is NOT the trapezoidal sum of its own integrand
samples — the left-endpoint half-term is missing. -/
theorem feedback_sum_not_trapezoid :
    fbIntegralSigma pC5 "constant" fbC5Jfb ((constantRun pC5).J_c 1) fbC5ff 1 ≠
      trapezoidSum pC5
        (fbSampleSigma pC5 "constant" fbC5Jfb ((constantRun pC5).J_c 1) fbC5ff 1) 1 := by
  have hg1 : gridTime pC5 1 = 1 := by
    rw [gridTime]
    norm_num [pC5, baseParams]
  have hg0 : gridTime pC5 0 = 0 := by
    rw [gridTime]
    norm_num
  have hQ1 : Q_c pC5 (gridTime pC5 1) = 1 := Q_c_of_unit_rates _ _ rfl rfl
  have hQ0 : Q_c pC5 (gridTime pC5 0) = 1 := Q_c_of_unit_rates _ _ rfl rfl
  have hff : fbC5ff = 1 := by
    rw [fbC5ff]
    simp only [fbFactor, fbCellFn, constantRun, hQ1, hQ0]
    norm_num [sigma_c_roof, pC5, baseParams]
  have hJ0 : fbC5Jfb 0 = 0.75 := by
    rw [fbC5Jfb]
    simp only [fbCellFn]
    norm_num [pC5, baseParams]
  rw [fbIntegralSigma, trapezoidSum, Finset.Icc_self, Finset.sum_singleton,
    Finset.sum_singleton]
  intro h
  have h0 : fbSampleSigma pC5 "constant" fbC5Jfb ((constantRun pC5).J_c 1) fbC5ff 1 0 = 0 := by
    rw [hg1, hg0] at h
    norm_num at h
    linarith
  rw [fbSampleSigma] at h0
  rw [hff, hJ0] at h0
  simp only [lamProto, q_c, hg1, hg0] at h0
  simp only [if_pos (by norm_num : (0:ℕ) < 1), if_true] at h0
  norm_num [sigma_c_roof, pC5, baseParams] at h0

/-- At most `fuel` inner passes execute. -/
theorem fbIterate_iters_le (p : Params) (proto : String) (base : BaseResult)
    (Jfb : ℕ → ℝ) (sigma0 : ℝ) (i : ℕ) (eps : ℝ) :
    ∀ (fuel : ℕ) (s : ℝ × ℝ),
      (fbIterate p proto base Jfb sigma0 i eps fuel s).2.2 ≤ fuel := by
  intro fuel
  induction fuel with
  | zero =>
      intro s
      simp [fbIterate]
  | succ n ih =>
      intro s
      rw [fbIterate]
      split
      · simp
      · have := ih (fbUpdate p proto base Jfb sigma0 i s)
        dsimp only
        omega

/-- A non-converged inner loop commits exactly the `fuel`-fold update of
its seed: the last computed estimate. -/
theorem fbIterate_last_estimate (p : Params) (proto : String)
    (base : BaseResult) (Jfb : ℕ → ℝ) (sigma0 : ℝ) (i : ℕ) (eps : ℝ) :
    ∀ (fuel : ℕ) (s : ℝ × ℝ),
      (fbIterate p proto base Jfb sigma0 i eps fuel s).2.1 = false →
        (fbIterate p proto base Jfb sigma0 i eps fuel s).1 =
          (fbUpdate p proto base Jfb sigma0 i)^[fuel] s := by
  intro fuel
  induction fuel with
  | zero =>
      intro s _
      simp [fbIterate]
  | succ n ih =>
      intro s
      rw [fbIterate]
      split
      · intro h
        exact absurd h (by simp)
      · intro h
        dsimp only at h ⊢
        rw [ih _ h, Function.iterate_succ_apply]

/-- A nonpositive tolerance can never be met, so the loop never reports
convergence. -/
theorem fbIterate_no_convergence_of_nonpos (p : Params) (proto : String)
    (base : BaseResult) (Jfb : ℕ → ℝ) (sigma0 : ℝ) (i : ℕ) (eps : ℝ)
    (heps : eps ≤ 0) :
    ∀ (fuel : ℕ) (s : ℝ × ℝ),
      (fbIterate p proto base Jfb sigma0 i eps fuel s).2.1 = false := by
  intro fuel
  induction fuel with
  | zero =>
      intro s
      simp [fbIterate]
  | succ n ih =>
      intro s
      rw [fbIterate]
      split
      · rename_i h
        exact absurd h.1 (not_lt.mpr (le_trans heps (abs_nonneg _)))
      · exact ih _

/-- The committed cell at a positive index carries the inner loop's flag. -/
theorem fbCellFn_succ_not_converged (p : Params) (proto : String)
    (base : BaseResult) (eps : ℝ) (k : ℕ) (heps : eps ≤ 0) :
    (fbCellFn p proto base eps (k + 1)).converged = false := by
  simp only [fbCellFn]
  exact fbIterate_no_convergence_of_nonpos p proto base _ _ (k + 1) eps heps 20 _

/-- C6: the inner iteration executes at most 20 passes; on
non-convergence the committed value is the 20-fold update of the seed
(the last estimate), exactly one warning signal tagged with the offending
index is emitted, and the run still returns a result rather than raising. -/
theorem feedback_iteration_cap_single_signal (p : Params) (proto s : String)
    (pr : Protocol) (base : BaseResult) (eps sigma0 : ℝ) (Jfb : ℕ → ℝ)
    (i : ℕ) (s0 : ℝ × ℝ) (n j : ℕ) (hj : j < n)
    (hnc : (fbCellFn p proto base eps j).converged = false)
    (hs : parseProtocol s = some pr) (he : p.epsilonOpt = some eps)
    (hp : p.protocolOpt = some proto) (hn : 2 ≤ p.n_points) :
    (fbIterate p proto base Jfb sigma0 i eps 20 s0).2.2 ≤ 20 ∧
      ((fbIterate p proto base Jfb sigma0 i eps 20 s0).2.1 = false →
        (fbIterate p proto base Jfb sigma0 i eps 20 s0).1 =
          (fbUpdate p proto base Jfb sigma0 i)^[20] s0) ∧
      (fbWarnings p proto base eps n).count j = 1 ∧
      (simulate p s true).isOk = true := by
  refine ⟨fbIterate_iters_le p proto base Jfb sigma0 i eps 20 s0,
    fbIterate_last_estimate p proto base Jfb sigma0 i eps 20 s0, ?_, ?_⟩
  · apply List.count_eq_one_of_mem
    · exact List.Nodup.filter _ (List.nodup_range n)
    · rw [fbWarnings, List.mem_filter]
      exact ⟨List.mem_range.mpr hj, by rw [hnc]; rfl⟩
  · rw [simulate, hs]
    have hn0 : ¬p.n_points = 0 := by omega
    simp [hn0, he, hp, hn, Except.isOk, Except.toBool]

/-- C6 input: `epsilon` present but negative, so no step can converge. -/
def pC6 : Params := { baseParams with epsilonOpt := some (-1) }

/-- Witness for C6's theorem: the concrete run with tolerance −1 at step
`j = 1` of a two-entry warning window. -/
theorem feedback_iteration_cap_single_signal_witness :
    (fbIterate pC6 "constant" (constantRun pC6) (fun _ => 0) 1 1 (-1) 20 (0, 0)).2.2 ≤ 20 ∧
      ((fbIterate pC6 "constant" (constantRun pC6) (fun _ => 0) 1 1 (-1) 20 (0, 0)).2.1 = false →
        (fbIterate pC6 "constant" (constantRun pC6) (fun _ => 0) 1 1 (-1) 20 (0, 0)).1 =
          (fbUpdate pC6 "constant" (constantRun pC6) (fun _ => 0) 1 1)^[20] (0, 0)) ∧
      (fbWarnings pC6 "constant" (constantRun pC6) (-1) 2).count 1 = 1 ∧
      (simulate pC6 "constant" true).isOk = true :=
  feedback_iteration_cap_single_signal pC6 "constant" "constant" .constant
    (constantRun pC6) (-1) 1 (fun _ => 0) 1 (0, 0) 2 1 (by norm_num)
    (fbCellFn_succ_not_converged pC6 "constant" (constantRun pC6) (-1) 0 (by norm_num))
    rfl rfl rfl (by norm_num [pC6, baseParams])

/-- Closed form of the collagen total-mass function away from the guard. -/
theorem Q_c_closed (p : Params) (t : ℝ) (hk : p.k_cminus ≠ 0) :
    Q_c p t = Real.exp (-p.k_cminus * t) +
      (p.k_cplus / p.k_cminus) * (1 - Real.exp (-p.k_cminus * t)) := by
  rw [Q_c, Q_cE, if_neg (by simp [hk]), if_neg hk]

/-- Closed form of the elastin total-mass function away from the guard. -/
theorem Q_e_closed (p : Params) (t : ℝ) (hk : p.k_eminus ≠ 0) :
    Q_e p t = Real.exp (-p.k_eminus * t) +
      (p.k_eplus / p.k_eminus) * (1 - Real.exp (-p.k_eminus * t)) := by
  rw [Q_e, Q_eE, if_neg (by simp [hk]), if_neg hk]

/-- The collagen survival integral against a constant factor. -/
theorem integral_q_c (p : Params) (t C : ℝ) (hk : p.k_cminus ≠ 0) :
    (∫ tau in (0:ℝ)..t, q_c p tau t * C) =
      C * ((1 - Real.exp (-p.k_cminus * t)) / p.k_cminus) := by
  simp only [q_c]
  exact integral_q_kernel_mul p.k_cminus t C hk

/-- The elastin survival integral against a constant factor. -/
theorem integral_q_e (p : Params) (t C : ℝ) (hk : p.k_eminus ≠ 0) :
    (∫ tau in (0:ℝ)..t, q_e p tau t * C) =
      C * ((1 - Real.exp (-p.k_eminus * t)) / p.k_eminus) := by
  simp only [q_e]
  exact integral_q_kernel_mul p.k_eminus t C hk

/-- C3 input: zero collagen turnover (so the production flux `j_cplus`
vanishes and both integral terms drop out), no collagen nonlinearity, two
grid points over one day. -/
def pC3 : Params :=
  { baseParams with alpha_c := 0, k_cplus := 0, k_cminus := 0, t_end := 1, n_points := 2, j_cplus := 0 }

/-- C3 counterexample: at grid index 1 of the linear protocol the code
evaluates the collagen stress response at the CURRENT stretch
`λ(t₁) = 1.21`, whereas the claimed formula evaluates it at the
deposition-time stretch `λ_eff(0) = λ(0) = 1.1`; with zero production flux
every integral term vanishes and the two values differ. -/
theorem linear_stress_not_spec_superposition :
    (linearRun pC3).sigma_c 1 ≠
      specSigmaTurnover pC3.Jc0 pC3.J0 pC3.j_cplus pC3.k_cminus
        (sigma_c_roof pC3) (linearLambda pC3)
        (fun t => pC3.Jc0 * Q_c pC3 t + pC3.Je0 * Q_e pC3 t + pC3.Jg0)
        (gridTime pC3 1) := by
  have hg1 : gridTime pC3 1 = 1 := by
    rw [gridTime]
    norm_num [pC3, baseParams]
  rw [specSigmaTurnover]
  simp only [linearRun, hg1, linearLambda, sigma_c_roof, q_c]
  norm_num [pC3, baseParams, Real.exp_zero]

/-- C3 amended: for the constant protocol each turnover constituent's
stress equals the claimed superposition with the `1/J_total(t)` factor
absent (equivalently `J_total ≡ 1`) and `λ_eff ≡ λ_roof`; for the linear
protocol the stress response is evaluated at the current stretch `λ(t_i)`
in both terms and the production integral — in closed form
`σ̂(λ(t_i))·(1−e^{−k₋ t_i})/k₋` — is divided by the constituent's own
volume fraction, not by `J_total(t)`. -/
theorem turnover_stress_superposition (p : Params) (i : ℕ)
    (hkc : p.k_cminus ≠ 0) (hke : p.k_eminus ≠ 0) (hJ0 : p.J0 = 1)
    (hjc : p.j_cplus = p.k_cplus * p.Jc0) (hje : p.j_eplus = p.k_eplus * p.Je0) :
    (constantRun p).sigma_c i =
        (p.Jc0 / p.J0) * sigma_c_roof p p.lambda_roof * q_c p 0 (gridTime p i) +
          p.j_cplus *
            ∫ tau in (0:ℝ)..gridTime p i,
              q_c p tau (gridTime p i) * sigma_c_roof p p.lambda_roof ∧
      (constantRun p).sigma_e i =
        (p.Je0 / p.J0) * (4 * p.c_e * p.lambda_roof ^ 2 * (p.lambda_roof ^ 2 - 1)) *
            q_e p 0 (gridTime p i) +
          p.j_eplus *
            ∫ tau in (0:ℝ)..gridTime p i,
              q_e p tau (gridTime p i) *
                (4 * p.c_e * p.lambda_roof ^ 2 * (p.lambda_roof ^ 2 - 1)) ∧
      (linearRun p).sigma_c i =
        (p.Jc0 / p.J0) * sigma_c_roof p (linearLambda p (gridTime p i)) *
            q_c p 0 (gridTime p i) +
          (p.j_cplus / (p.Jc0 * Q_c p (gridTime p i))) *
            (sigma_c_roof p (linearLambda p (gridTime p i)) *
              ((1 - Real.exp (-p.k_cminus * gridTime p i)) / p.k_cminus)) ∧
      (linearRun p).sigma_e i =
        (p.Je0 / p.J0) *
            (4 * p.c_e * linearLambda p (gridTime p i) ^ 2 *
              (linearLambda p (gridTime p i) ^ 2 - 1)) * q_e p 0 (gridTime p i) +
          (p.j_eplus / (p.Je0 * Q_e p (gridTime p i))) *
            ((4 * p.c_e * linearLambda p (gridTime p i) ^ 2 *
                (linearLambda p (gridTime p i) ^ 2 - 1)) *
              ((1 - Real.exp (-p.k_eminus * gridTime p i)) / p.k_eminus)) := by
  refine ⟨?_, ?_, ?_, ?_⟩
  · rw [show (constantRun p).sigma_c i =
      sigma_c_roof p p.lambda_roof * (p.Jc0 * Q_c p (gridTime p i)) from rfl]
    rw [integral_q_c p (gridTime p i) _ hkc, Q_c_closed p _ hkc, hjc, hJ0]
    simp only [q_c, sub_zero]
    field_simp
    ring
  · rw [show (constantRun p).sigma_e i =
      4 * p.c_e * p.lambda_roof ^ 2 * (p.lambda_roof ^ 2 - 1) *
        (p.Je0 * Q_e p (gridTime p i)) from rfl]
    rw [integral_q_e p (gridTime p i) _ hke, Q_e_closed p _ hke, hje, hJ0]
    simp only [q_e, sub_zero]
    field_simp
    ring
  · rw [show (linearRun p).sigma_c i =
      (p.Jc0 / p.J0) * sigma_c_roof p (linearLambda p (gridTime p i)) *
          q_c p 0 (gridTime p i) +
        (p.j_cplus / (p.Jc0 * Q_c p (gridTime p i))) *
          ∫ tau in (0:ℝ)..gridTime p i,
            q_c p tau (gridTime p i) *
              sigma_c_roof p (linearLambda p (gridTime p i)) from rfl]
    rw [integral_q_c p (gridTime p i) _ hkc]
  · rw [show (linearRun p).sigma_e i =
      (p.Je0 / p.J0) *
          (4 * p.c_e * linearLambda p (gridTime p i) ^ 2 *
            (linearLambda p (gridTime p i) ^ 2 - 1)) * q_e p 0 (gridTime p i) +
        (p.j_eplus / (p.Je0 * Q_e p (gridTime p i))) *
          ∫ tau in (0:ℝ)..gridTime p i,
            q_e p tau (gridTime p i) *
              (4 * p.c_e * linearLambda p (gridTime p i) ^ 2 *
                (linearLambda p (gridTime p i) ^ 2 - 1)) from rfl]
    rw [integral_q_e p (gridTime p i) _ hke]

/-- Witness for C3's amended theorem at the default parameters, grid
index 1. -/
theorem turnover_stress_superposition_witness :
    (constantRun baseParams).sigma_c 1 =
        (baseParams.Jc0 / baseParams.J0) * sigma_c_roof baseParams baseParams.lambda_roof *
            q_c baseParams 0 (gridTime baseParams 1) +
          baseParams.j_cplus *
            ∫ tau in (0:ℝ)..gridTime baseParams 1,
              q_c baseParams tau (gridTime baseParams 1) *
                sigma_c_roof baseParams baseParams.lambda_roof ∧
      (constantRun baseParams).sigma_e 1 =
        (baseParams.Je0 / baseParams.J0) *
            (4 * baseParams.c_e * baseParams.lambda_roof ^ 2 *
              (baseParams.lambda_roof ^ 2 - 1)) * q_e baseParams 0 (gridTime baseParams 1) +
          baseParams.j_eplus *
            ∫ tau in (0:ℝ)..gridTime baseParams 1,
              q_e baseParams tau (gridTime baseParams 1) *
                (4 * baseParams.c_e * baseParams.lambda_roof ^ 2 *
                  (baseParams.lambda_roof ^ 2 - 1)) ∧
      (linearRun baseParams).sigma_c 1 =
        (baseParams.Jc0 / baseParams.J0) *
            sigma_c_roof baseParams (linearLambda baseParams (gridTime baseParams 1)) *
            q_c baseParams 0 (gridTime baseParams 1) +
          (baseParams.j_cplus / (baseParams.Jc0 * Q_c baseParams (gridTime baseParams 1))) *
            (sigma_c_roof baseParams (linearLambda baseParams (gridTime baseParams 1)) *
              ((1 - Real.exp (-baseParams.k_cminus * gridTime baseParams 1)) /
                baseParams.k_cminus)) ∧
      (linearRun baseParams).sigma_e 1 =
        (baseParams.Je0 / baseParams.J0) *
            (4 * baseParams.c_e * linearLambda baseParams (gridTime baseParams 1) ^ 2 *
              (linearLambda baseParams (gridTime baseParams 1) ^ 2 - 1)) *
            q_e baseParams 0 (gridTime baseParams 1) +
          (baseParams.j_eplus / (baseParams.Je0 * Q_e baseParams (gridTime baseParams 1))) *
            ((4 * baseParams.c_e * linearLambda baseParams (gridTime baseParams 1) ^ 2 *
                (linearLambda baseParams (gridTime baseParams 1) ^ 2 - 1)) *
              ((1 - Real.exp (-baseParams.k_eminus * gridTime baseParams 1)) /
                baseParams.k_eminus)) :=
  turnover_stress_superposition baseParams 1
    (by norm_num [baseParams]) (by norm_num [baseParams]) rfl
    (by norm_num [baseParams]) (by norm_num [baseParams])

end CMM
